import Mathlib

/-!
Verification development for the STF digital-twin repository.

The hardware simulation module `hardware/mock_factory.py` (classes
`MotorSimulation`, `LightBarrierSimulation`, `TrailSensorSimulation`,
`ConveyorSimulation`, `HBWSimulation`, `VGRSimulation`) is imported by the
test files but is not part of the source tree; only its tests and the
specification describe it.  Those components are therefore modelled from
the specification.  Components whose code is present
(`controller/main_controller.py`, `stf_warehouse/database/models.py`,
`hardware/hbw_withfaults_simulation.py`, `hardware/mock_hbw_02.py`) are
embedded directly from the source.  All physical quantities are rationals.
-/

namespace STF

/-- Modelled from the spec: motor phase set of the absent
`MotorSimulation` (spec section 4.1): `{Idle, Startup, Running, Stopping}`. -/
inductive MotorPhase where
  | Idle
  | Startup
  | Running
  | Stopping
deriving DecidableEq, Repr

/-- Modelled from the spec: immutable per-motor electrical/wear parameters
(spec section 3, `MotorSpec`).  `min_health` is the configurable positive
floor for the health score (spec section 4.1, "floored at a configurable
minimum"). -/
structure MotorSpec where
  idle_amps : ℚ
  startup_amps : ℚ
  running_amps : ℚ
  voltage : ℚ
  startup_duration : ℚ
  degradation_rate_per_sec_running : ℚ
  min_health : ℚ
deriving DecidableEq, Repr

/-- Modelled from the spec: mutable motor state (spec section 3,
`MotorState`).  `elapsed_in_startup` is the explicit elapsed-time
accumulator for the `Startup` phase, advanced only by `tick(dt)`
(spec sections 4.1 and 9: the transition is driven by simulated time,
never by wall-clock time). -/
structure MotorState where
  phase : MotorPhase
  current_amps : ℚ
  health_score : ℚ
  accumulated_runtime_sec : ℚ
  elapsed_in_startup : ℚ
deriving DecidableEq, Repr

namespace Motor

/-- Modelled from the spec: fresh motor at simulation start
(`health_score = 1.0`, phase `Idle`). -/
def init (spec : MotorSpec) : MotorState :=
  { phase := .Idle
    current_amps := spec.idle_amps
    health_score := 1
    accumulated_runtime_sec := 0
    elapsed_in_startup := 0 }

/-- Modelled from the spec: `activate()` — no-op if already
`Running`/`Startup`; sets phase to `Startup` (with a fresh elapsed-time
accumulator) if currently `Idle`/`Stopping` (spec section 4.1). -/
def activate (s : MotorState) : MotorState :=
  match s.phase with
  | .Idle => { s with phase := .Startup, elapsed_in_startup := 0 }
  | .Stopping => { s with phase := .Startup, elapsed_in_startup := 0 }
  | .Startup => s
  | .Running => s

/-- Modelled from the spec: `deactivate()` — sets phase to `Stopping` if
currently `Running`/`Startup`; no-op while `Idle` (spec section 4.1). -/
def deactivate (s : MotorState) : MotorState :=
  match s.phase with
  | .Running => { s with phase := .Stopping }
  | .Startup => { s with phase := .Stopping }
  | .Idle => s
  | .Stopping => s

/-- Modelled from the spec: `tick(dt)` — advances the phase state machine
and the electrical/health model by `dt` seconds (spec section 4.1).
`Startup` transitions to `Running` exactly when the accumulated elapsed
time reaches `startup_duration`.  While `Running`, the health score
degrades by `degradation_rate_per_sec_running * dt`, floored at
`min_health`, and runtime accumulates.  The spec gives no formula for the
`Stopping` current decay beyond "settles to zero", so the model settles
to `Idle` within one tick; no claim depends on the decay shape. -/
def tick (spec : MotorSpec) (s : MotorState) (dt : ℚ) : MotorState :=
  match s.phase with
  | .Idle => { s with current_amps := spec.idle_amps }
  | .Startup =>
      let e := s.elapsed_in_startup + dt
      if spec.startup_duration ≤ e then
        { s with phase := .Running, current_amps := spec.running_amps,
                 elapsed_in_startup := e }
      else
        { s with phase := .Startup, current_amps := spec.startup_amps,
                 elapsed_in_startup := e }
  | .Running =>
      { s with current_amps := spec.running_amps,
               health_score :=
                 max spec.min_health
                   (s.health_score - spec.degradation_rate_per_sec_running * dt),
               accumulated_runtime_sec := s.accumulated_runtime_sec + dt }
  | .Stopping => { s with phase := .Idle, current_amps := spec.idle_amps }

/-- Run a motor through a whole sequence of `tick(dt)` calls. -/
def runTicks (spec : MotorSpec) (s : MotorState) (dts : List ℚ) : MotorState :=
  dts.foldl (fun st dt => tick spec st dt) s

end Motor

/-- Modelled from the spec: `ZoneSensorSpec` — a light barrier triggered
inside a position interval (spec sections 3 and 4.3). -/
structure ZoneSensor where
  center_position : ℚ
  tolerance : ℚ
deriving DecidableEq, Repr

namespace ZoneSensor

/-- Modelled from the spec: `ZoneSensor.evaluate(position) → bool` is
`|position - center_position| ≤ tolerance`; a pure function with no state
(spec section 4.3). -/
def evaluate (z : ZoneSensor) (p : ℚ) : Bool :=
  decide (|p - z.center_position| ≤ z.tolerance)

/-- A zone sensor watching an optional object position: with no object
present the sensor is not triggered. -/
def evaluateOpt (z : ZoneSensor) (o : Option ℚ) : Bool :=
  match o with
  | some p => z.evaluate p
  | none => false

end ZoneSensor

namespace TrailSensor

/-- Modelled from the spec: trail sensor I5 — given cumulative distance
travelled `d` since start, `I5 = (floor(d / rib_spacing) mod 2) == 0`
(spec section 4.3). -/
def i5 (rib : ℚ) (d : ℚ) : Bool :=
  decide (⌊d / rib⌋ % 2 = 0)

/-- Modelled from the spec: trail sensor I6 is the negation of I5
(spec section 4.3: `I6 = !I5`). -/
def i6 (rib : ℚ) (d : ℚ) : Bool :=
  ! i5 rib d

end TrailSensor

/-- Modelled from the spec: conveyor travel direction
(spec section 4.4; `Forward` moves toward the HBW interface,
`direction=1` in the tests). -/
inductive Direction where
  | Forward
  | Reverse
deriving DecidableEq, Repr

/-- Sign of a travel direction: `+1` for `Forward`, `-1` for `Reverse`. -/
def Direction.sign : Direction → ℚ
  | .Forward => 1
  | .Reverse => -1

/-- Modelled from the spec: error taxonomy for rejected commands
(spec section 7): every rejected command yields a structured error value,
never a silent no-op. -/
inductive ConveyorError where
  | Congestion (msg : String)
  | AlreadyOccupied
  | EmptyConveyor
  | InvalidTarget
deriving DecidableEq, Repr

/-- Modelled from the spec: read-only conveyor configuration
(spec section 6): interface positions, sensor tolerance, trail rib
spacing, plus belt length and drive velocity.  Defaults follow the test
constants `POS_HBW_INTERFACE=400`, `POS_VGR_INTERFACE=950`,
`SENSOR_TOLERANCE_MM=25`, `TRAIL_RIB_SPACING_MM=10`, 100 mm/s drive. -/
structure ConveyorConfig where
  posHbwInterface : ℚ := 400
  posVgrInterface : ℚ := 950
  sensorTolerance : ℚ := 25
  trailRibSpacing : ℚ := 10
  beltLength : ℚ := 1000
  velocity : ℚ := 100
  motorSpec : MotorSpec :=
    { idle_amps := 1/10, startup_amps := 4, running_amps := 2, voltage := 24,
      startup_duration := 1/2, degradation_rate_per_sec_running := 1/10000,
      min_health := 1/20 }
deriving Repr

/-- Modelled from the spec: `ConveyorState` (spec section 3):
cumulative belt travel, direction, running flag, optional carried object
position, and the drive motor. -/
structure ConveyorState where
  belt_position : ℚ
  direction : Direction
  running : Bool
  object_position : Option ℚ
  motor : MotorState
deriving DecidableEq, Repr

namespace Conveyor

/-- Modelled from the spec: initial conveyor state (empty belt, stopped,
forward by default, fresh drive motor). -/
def init (cfg : ConveyorConfig) : ConveyorState :=
  { belt_position := 0
    direction := .Forward
    running := false
    object_position := none
    motor := Motor.init cfg.motorSpec }

/-- The HBW-side interface Zone Sensor (I2 in the tests). -/
def hbwSensor (cfg : ConveyorConfig) : ZoneSensor :=
  { center_position := cfg.posHbwInterface, tolerance := cfg.sensorTolerance }

/-- The VGR-side interface Zone Sensor (I3 in the tests). -/
def vgrSensor (cfg : ConveyorConfig) : ZoneSensor :=
  { center_position := cfg.posVgrInterface, tolerance := cfg.sensorTolerance }

/-- Convenience flag `at_hbw_interface` mirroring the HBW-side Zone
Sensor output (spec section 4.4). -/
def atHbwInterface (cfg : ConveyorConfig) (st : ConveyorState) : Bool :=
  (hbwSensor cfg).evaluateOpt st.object_position

/-- Convenience flag `at_vgr_interface` mirroring the VGR-side Zone
Sensor output (spec section 4.4). -/
def atVgrInterface (cfg : ConveyorConfig) (st : ConveyorState) : Bool :=
  (vgrSensor cfg).evaluateOpt st.object_position

/-- Trail sensor I5 evaluated on the belt's cumulative travel distance. -/
def i5 (cfg : ConveyorConfig) (st : ConveyorState) : Bool :=
  TrailSensor.i5 cfg.trailRibSpacing st.belt_position

/-- Trail sensor I6 evaluated on the belt's cumulative travel distance. -/
def i6 (cfg : ConveyorConfig) (st : ConveyorState) : Bool :=
  TrailSensor.i6 cfg.trailRibSpacing st.belt_position

/-- Modelled from the spec: `place_object(position)` — fails with
`AlreadyOccupied` if an object is already present (leaving the state
unchanged); otherwise sets `object_position = Some(position)`
(spec sections 4.4 and 7).  Returns the new state together with the
structured error, if any. -/
def place_object (st : ConveyorState) (p : ℚ) :
    ConveyorState × Option ConveyorError :=
  match st.object_position with
  | some _ => (st, some .AlreadyOccupied)
  | none => ({ st with object_position := some p }, none)

/-- Modelled from the spec: `remove_object()` — clears `object_position`;
no-op if already empty (spec section 4.4). -/
def remove_object (st : ConveyorState) : ConveyorState :=
  { st with object_position := none }

/-- Modelled from the spec: `start(direction)` — congestion check first:
if `direction == Forward` and the HBW-side Zone Sensor is currently
triggered, reject with `Congestion("HBW interface blocked")` and do not
start the motor; symmetrically for `Reverse` and the VGR-side sensor.
Only after the check passes does it activate the drive Motor and set
`running = true` (spec section 4.4).  On rejection the returned state is
the input state, untouched: no motor activation has happened. -/
def start (cfg : ConveyorConfig) (st : ConveyorState) (dir : Direction) :
    ConveyorState × Option ConveyorError :=
  match dir with
  | .Forward =>
      if atHbwInterface cfg st then
        (st, some (.Congestion "HBW interface blocked"))
      else
        ({ st with direction := dir, running := true,
                   motor := Motor.activate st.motor }, none)
  | .Reverse =>
      if atVgrInterface cfg st then
        (st, some (.Congestion "VGR interface blocked"))
      else
        ({ st with direction := dir, running := true,
                   motor := Motor.activate st.motor }, none)

/-- Modelled from the spec: `stop()` — deactivates the drive Motor and
sets `running = false` (spec section 4.4). -/
def stop (st : ConveyorState) : ConveyorState :=
  { st with running := false, motor := Motor.deactivate st.motor }

/-- Modelled from the spec: `tick(dt)` — advance the drive motor; if
`running` and an object is present, advance `object_position` by
`velocity * dt * sign(direction)`, clamped to `[0, belt_length]`; the
object is never cleared by `tick` (removal is the caller's explicit
`remove_object()`).  The belt's own cumulative travel distance advances
by `velocity * dt` whenever running (spec sections 4.3 and 4.4). -/
def tick (cfg : ConveyorConfig) (st : ConveyorState) (dt : ℚ) :
    ConveyorState :=
  { st with
      motor := Motor.tick cfg.motorSpec st.motor dt
      belt_position :=
        if st.running then st.belt_position + cfg.velocity * dt
        else st.belt_position
      object_position :=
        match st.object_position with
        | some p =>
            if st.running then
              some (min cfg.beltLength
                (max 0 (p + cfg.velocity * dt * st.direction.sign)))
            else some p
        | none => none }

end Conveyor

/-- Slot coordinate table of `controller/main_controller.py`
(`SLOT_COORDINATES`, lines 37-41): slot name to physical X/Y in mm. -/
def controllerSlotCoordinates : List (String × ℤ × ℤ) :=
  [("A1", 100, 100), ("A2", 200, 100), ("A3", 300, 100),
   ("B1", 100, 200), ("B2", 200, 200), ("B3", 300, 200),
   ("C1", 100, 300), ("C2", 200, 300), ("C3", 300, 300)]

/-- Slot coordinate table of `stf_warehouse/database/models.py`
(`SLOT_COORDINATES`, lines 147-151). -/
def modelsSlotCoordinates : List (String × ℤ × ℤ) :=
  [("A1", 100, 100), ("A2", 200, 100), ("A3", 300, 100),
   ("B1", 100, 200), ("B2", 200, 200), ("B3", 300, 200),
   ("C1", 100, 300), ("C2", 200, 300), ("C3", 300, 300)]

/-- Slot coordinate table the simulation is expected to expose, as
asserted by `tests/test_factory_scenarios.py`
(`TestHBW.test_slot_coordinates`, `expected_slots`, lines 125-129). -/
def testExpectedSlotCoordinates : List (String × ℤ × ℤ) :=
  [("A1", 0, 200), ("A2", 100, 200), ("A3", 200, 200),
   ("B1", 0, 100), ("B2", 100, 100), ("B3", 200, 100),
   ("C1", 0, 0), ("C2", 100, 0), ("C3", 200, 0)]

/-- Dictionary-style lookup in a slot coordinate table
(Python `SLOT_COORDINATES.get(slot)`). -/
def slotLookup (table : List (String × ℤ × ℤ)) (slot : String) :
    Option (ℤ × ℤ) :=
  (table.find? (fun e => e.1 == slot)).map (fun e => e.2)

/-- Cookie type drawn in `hbw_withfaults_simulation.py`
(`random.choice(["Cooked", "Uncooked"])`); the random draw is passed in
as an argument of the embedded `store_cookie`. -/
inductive CookieType where
  | Cooked
  | Uncooked
deriving DecidableEq, Repr

/-- Rendering used in the telemetry message of `store_cookie`. -/
def CookieType.describe : CookieType → String
  | .Cooked => "Cooked"
  | .Uncooked => "Uncooked"

/-- State of `HighBayEdgeController`
(`hardware/hbw_withfaults_simulation.py`): the 3x3 storage grid
(`Row_0`, `Row_1`, `Row_2`, three slots each), the homing flag set by
`reference_run`, and the log of telemetry messages published through
`send_telemetry`. -/
structure HBWEdgeState where
  grid : List (List (Option CookieType))
  is_homed : Bool
  telemetry : List String
deriving DecidableEq, Repr

namespace HBWEdge

/-- Initial `HighBayEdgeController` state: empty 3x3 grid, not homed. -/
def init : HBWEdgeState :=
  { grid := [[none, none, none], [none, none, none], [none, none, none]]
    is_homed := false
    telemetry := [] }

/-- `find_first_available_slot` of `hbw_withfaults_simulation.py`:
scan rows `Row_0`, `Row_1`, `Row_2` in order and return the first row
holding a `None` slot together with the index of that slot. -/
def find_first_available_slot :
    List (List (Option CookieType)) → Option (ℕ × ℕ)
  | [] => none
  | row :: rest =>
      match row.findIdx? (fun s => s.isNone) with
      | some c => some (0, c)
      | none =>
          (find_first_available_slot rest).map (fun rc => (rc.1 + 1, rc.2))

/-- Write a cookie into grid cell `(r, c)`. -/
def setSlot (g : List (List (Option CookieType))) (r c : ℕ)
    (ct : CookieType) : List (List (Option CookieType)) :=
  g.set r ((g.getD r []).set c (some ct))

/-- `reference_run` of `hbw_withfaults_simulation.py`, net state effect:
after the simulated homing delay it sets `is_homed = True` and publishes
the telemetry message. -/
def reference_run (st : HBWEdgeState) : HBWEdgeState :=
  { st with is_homed := true,
            telemetry := st.telemetry ++ ["Homed and Ready"] }

/-- `store_cookie` of `hbw_withfaults_simulation.py`, net state effect of
driving the generator to completion.  The guard on its first line is
`if not self.is_homed: return` — when the controller has not homed, the
generator finishes immediately: the grid, homing flag and telemetry log
are untouched and no error value exists (the function has no error
channel).  Otherwise the randomly identified cookie type (passed here as
`ct`) is stored in the first available slot and a `Stored ...` telemetry
message is published; with a full grid it prints a warehouse-full alert
and returns without publishing. -/
def store_cookie (ct : CookieType) (st : HBWEdgeState) : HBWEdgeState :=
  if st.is_homed = false then st
  else
    match find_first_available_slot st.grid with
    | none => st
    | some (r, c) =>
        { st with grid := setSlot st.grid r c ct,
                  telemetry :=
                    st.telemetry ++ ["Stored " ++ ct.describe] }

end HBWEdge

/-- `HardwareStatus` of `hardware/mock_hbw_02.py`. -/
inductive HardwareStatus where
  | IDLE
  | MOVING
  | ERROR
deriving DecidableEq, Repr

/-- `Position` dataclass of `hardware/mock_hbw_02.py`. -/
structure MockPosition where
  x : ℚ
  y : ℚ
  z : ℚ
deriving DecidableEq, Repr

/-- `HardwareState` dataclass of `hardware/mock_hbw_02.py` as held by
`MockHBW.state`. -/
structure MockHBWState where
  position : MockPosition
  target : Option MockPosition
  status : HardwareStatus
  gripper_closed : Bool
deriving DecidableEq, Repr

namespace MockHBW

/-- `MockHBW._update_physics(dt)` of `hardware/mock_hbw_02.py`
(lines 71-78): while `status == MOVING` it increments `position.x` by
`1.0` (the `dt` argument and the stored `target` are not read), then
switches `status` to `IDLE` if the new `position.x` exceeds `50`;
otherwise it does nothing. -/
def update_physics (s : MockHBWState) (dt : ℚ) : MockHBWState :=
  if s.status = .MOVING then
    let x := s.position.x + 1
    { s with position := { s.position with x := x },
             status := if 50 < x then .IDLE else s.status }
  else s

end MockHBW

/-- Sample motor parameters used by the concrete witnesses (startup
current above running current above idle current, 500 ms startup, the
tests' degradation rate 0.0001 per second, health floor 0.05). -/
def sampleMotorSpec : MotorSpec :=
  { idle_amps := 1/10, startup_amps := 4, running_amps := 2, voltage := 24,
    startup_duration := 1/2, degradation_rate_per_sec_running := 1/10000,
    min_health := 1/20 }

/-- Default conveyor configuration used by the concrete witnesses. -/
def stdConveyorConfig : ConveyorConfig := {}

/-- Claim C5: `ZoneSensor.evaluate(position)` is true exactly on
`|position - center_position| ≤ tolerance`; both boundary positions
`center ± tolerance` are triggered (inclusive), and every position
strictly outside the interval yields false. -/
theorem c5_zone_sensor_interval (z : ZoneSensor) (p : ℚ)
    (htol : 0 ≤ z.tolerance) :
    (z.evaluate p = true ↔ |p - z.center_position| ≤ z.tolerance)
    ∧ z.evaluate (z.center_position + z.tolerance) = true
    ∧ z.evaluate (z.center_position - z.tolerance) = true
    ∧ (z.tolerance < |p - z.center_position| → z.evaluate p = false) := by
  refine ⟨by simp [ZoneSensor.evaluate], ?_, ?_, ?_⟩
  · simp [ZoneSensor.evaluate, abs_of_nonneg htol]
  · simp [ZoneSensor.evaluate, abs_of_nonpos, htol]
  · intro h
    simp only [ZoneSensor.evaluate, decide_eq_false_iff_not, not_le]
    exact h

/-- Witness for C5 at the HBW-side sensor geometry (center 400,
tolerance 25): the upper boundary position 425 is triggered. -/
theorem c5_zone_sensor_interval_witness :
    ZoneSensor.evaluate ⟨400, 25⟩ (400 + 25) = true :=
  (c5_zone_sensor_interval ⟨400, 25⟩ 0 (by norm_num)).2.1

/-- Claim C4: with cumulative travel `d`, trail sensor I5 is
`(floor(d / rib_spacing) mod 2) == 0` and I6 its negation, so I5 and I6
are complementary everywhere (in particular on every conveyor state) and
each `rib_spacing` of travel flips both exactly once. -/
theorem c4_trail_sensors (rib d : ℚ) (hrib : 0 < rib) :
    (TrailSensor.i5 rib d = true ↔ ⌊d / rib⌋ % 2 = 0)
    ∧ TrailSensor.i5 rib d ≠ TrailSensor.i6 rib d
    ∧ TrailSensor.i5 rib (d + rib) = ! TrailSensor.i5 rib d
    ∧ TrailSensor.i6 rib (d + rib) = ! TrailSensor.i6 rib d
    ∧ ∀ (cfg : ConveyorConfig) (st : ConveyorState),
        Conveyor.i5 cfg st ≠ Conveyor.i6 cfg st := by
  have hflip : TrailSensor.i5 rib (d + rib) = ! TrailSensor.i5 rib d := by
    have hne : rib ≠ 0 := ne_of_gt hrib
    have hdiv : (d + rib) / rib = d / rib + 1 := by
      field_simp
    have hfloor : ⌊(d + rib) / rib⌋ = ⌊d / rib⌋ + 1 := by
      rw [hdiv]
      exact_mod_cast Int.floor_add_one (d / rib)
    simp only [TrailSensor.i5, hfloor]
    rcases Int.emod_two_eq_zero_or_one ⌊d / rib⌋ with h | h <;>
      simp [h, Int.add_mul_emod_self_left] <;> omega
  refine ⟨by simp [TrailSensor.i5], ?_, hflip, ?_, ?_⟩
  · simp [TrailSensor.i6]
  · simp [TrailSensor.i6, hflip]
  · intro cfg st
    simp [Conveyor.i5, Conveyor.i6, TrailSensor.i6]

/-- Witness for C4 with the tests' rib spacing of 10 mm at travel
distance 7: I5 is on, I6 off, and 10 mm further both have flipped. -/
theorem c4_trail_sensors_witness :
    TrailSensor.i5 10 (7 + 10) = ! TrailSensor.i5 10 7 :=
  (c4_trail_sensors 10 7 (by norm_num)).2.2.1

/-- A motor in the `Running` phase stays in `Running` across any single
tick (only `deactivate` leaves `Running`). -/
lemma Motor.tick_running_phase (spec : MotorSpec) (s : MotorState) (dt : ℚ)
    (h : s.phase = .Running) :
    (Motor.tick spec s dt).phase = .Running := by
  simp [Motor.tick, h]

/-- A motor in the `Running` phase stays in `Running` across any sequence
of ticks. -/
lemma Motor.runTicks_running_phase (spec : MotorSpec) (dts : List ℚ)
    (s : MotorState) (h : s.phase = .Running) :
    (Motor.runTicks spec s dts).phase = .Running := by
  induction dts generalizing s with
  | nil => exact h
  | cons dt rest ih =>
      exact ih _ (Motor.tick_running_phase spec s dt h)

/-- Phase after a tick sequence from a mid-`Startup` state: the motor is
`Running` exactly when the elapsed accumulator plus the summed `dt`
values reaches `startup_duration`. -/
lemma Motor.runTicks_startup_iff (spec : MotorSpec) (dts : List ℚ)
    (hnn : ∀ dt ∈ dts, 0 ≤ dt) (s : MotorState) (hph : s.phase = .Startup)
    (hlt : ¬ spec.startup_duration ≤ s.elapsed_in_startup) :
    ((Motor.runTicks spec s dts).phase = .Running
      ↔ spec.startup_duration ≤ s.elapsed_in_startup + dts.sum) := by
  induction dts generalizing s with
  | nil =>
      simp only [Motor.runTicks, List.foldl_nil, List.sum_nil, add_zero]
      rw [hph]
      simp [hlt]
  | cons dt rest ih =>
      have hdt : 0 ≤ dt := hnn dt (by simp)
      have hrest : ∀ d ∈ rest, 0 ≤ d := fun d hd => hnn d (by simp [hd])
      have hsum : 0 ≤ rest.sum := List.sum_nonneg hrest
      simp only [Motor.runTicks, List.foldl_cons, List.sum_cons]
      by_cases hreach : spec.startup_duration ≤ s.elapsed_in_startup + dt
      · have htick : (Motor.tick spec s dt).phase = .Running := by
          simp [Motor.tick, hph, hreach]
        have := Motor.runTicks_running_phase spec rest _ htick
        simp only [Motor.runTicks] at this
        rw [this]
        constructor
        · intro _
          calc spec.startup_duration ≤ s.elapsed_in_startup + dt := hreach
            _ ≤ s.elapsed_in_startup + (dt + rest.sum) := by linarith
        · intro _; rfl
      · have htick : Motor.tick spec s dt
            = { s with phase := .Startup,
                       current_amps := spec.startup_amps,
                       elapsed_in_startup := s.elapsed_in_startup + dt } := by
          simp [Motor.tick, hph, hreach]
        rw [htick]
        have ih' := ih hrest
            { s with phase := .Startup,
                     current_amps := spec.startup_amps,
                     elapsed_in_startup := s.elapsed_in_startup + dt }
            rfl (by simpa using hreach)
        simp only [Motor.runTicks] at ih'
        rw [ih']
        show spec.startup_duration ≤ s.elapsed_in_startup + dt + rest.sum
          ↔ spec.startup_duration ≤ s.elapsed_in_startup + (dt + rest.sum)
        constructor <;> intro h' <;> linarith

/-- Claim C2: a motor activated from `Idle` enters `Startup`, and after
any sequence of `tick(dt)` calls with nonnegative `dt` it is in the
`Running` phase exactly when the simulated time accumulated from those
`dt` arguments has reached `startup_duration`.  Phase evolution is the
pure function `Motor.runTicks` of the `dt` sequence alone: no wall-clock
input exists in the model. -/
theorem c2_startup_to_running (spec : MotorSpec) (s : MotorState)
    (dts : List ℚ) (hIdle : s.phase = .Idle)
    (hnn : ∀ dt ∈ dts, 0 ≤ dt) (hdur : 0 < spec.startup_duration) :
    (Motor.activate s).phase = .Startup
    ∧ ((Motor.runTicks spec (Motor.activate s) dts).phase = .Running
        ↔ spec.startup_duration ≤ dts.sum) := by
  have hact : Motor.activate s
      = { s with phase := .Startup, elapsed_in_startup := 0 } := by
    simp [Motor.activate, hIdle]
  refine ⟨by rw [hact], ?_⟩
  rw [hact]
  have := Motor.runTicks_startup_iff spec dts hnn
      { s with phase := .Startup, elapsed_in_startup := 0 } rfl
      (by simpa using not_le.mpr hdur)
  simpa using this

/-- Witness for C2: with a 0.5 s startup duration, two ticks of 0.3 s
each move a freshly activated motor into `Running`. -/
theorem c2_startup_to_running_witness :
    (Motor.runTicks sampleMotorSpec
        (Motor.activate (Motor.init sampleMotorSpec))
        [3/10, 3/10]).phase = .Running :=
  ((c2_startup_to_running sampleMotorSpec (Motor.init sampleMotorSpec)
      [3/10, 3/10] rfl
      (by intro dt h; fin_cases h <;> norm_num)
      (by norm_num [sampleMotorSpec])).2).mpr
    (by norm_num [sampleMotorSpec])

/-- Health and floor behaviour of one tick: the health score never
increases, never drops below the configured floor, is untouched whenever
the phase is not `Running`, and while `Running` decreases by exactly
`degradation_rate_per_sec_running * dt` floored at `min_health`. -/
lemma Motor.tick_health (spec : MotorSpec) (s : MotorState) (dt : ℚ)
    (hdt : 0 ≤ dt) (hrate : 0 ≤ spec.degradation_rate_per_sec_running)
    (hmin : spec.min_health ≤ s.health_score) :
    (Motor.tick spec s dt).health_score ≤ s.health_score
    ∧ spec.min_health ≤ (Motor.tick spec s dt).health_score := by
  cases hph : s.phase <;> simp only [Motor.tick, hph]
  · exact ⟨le_refl _, hmin⟩
  · split <;> exact ⟨le_refl _, hmin⟩
  · constructor
    · apply max_le hmin
      nlinarith
    · exact le_max_left _ _
  · exact ⟨le_refl _, hmin⟩

/-- Health across a sequence of ticks: monotonically non-increasing and
never below the configured floor. -/
lemma Motor.runTicks_health (spec : MotorSpec) (dts : List ℚ)
    (hnn : ∀ d ∈ dts, 0 ≤ d)
    (hrate : 0 ≤ spec.degradation_rate_per_sec_running)
    (s : MotorState) (hmin : spec.min_health ≤ s.health_score) :
    (Motor.runTicks spec s dts).health_score ≤ s.health_score
    ∧ spec.min_health ≤ (Motor.runTicks spec s dts).health_score := by
  induction dts generalizing s with
  | nil => exact ⟨le_refl _, hmin⟩
  | cons dt rest ih =>
      have hdt : 0 ≤ dt := hnn dt (by simp)
      have hrest : ∀ d ∈ rest, 0 ≤ d := fun d hd => hnn d (by simp [hd])
      have h1 := Motor.tick_health spec s dt hdt hrate hmin
      have h2 := ih hrest (Motor.tick spec s dt) h1.2
      simp only [Motor.runTicks, List.foldl_cons] at h2 ⊢
      exact ⟨le_trans h2.1 h1.1, h2.2⟩

/-- Claim C3: across any sequence of ticks with nonnegative `dt` the
health score is monotonically non-increasing and stays at or above the
configured positive floor `min_health` (so it is never 0); a single tick
leaves the score unchanged in `Idle`, `Startup`, or `Stopping`, and in
`Running` lowers it by exactly `degradation_rate_per_sec_running * dt`,
floored at `min_health`. -/
theorem c3_health_degradation (spec : MotorSpec) (s : MotorState)
    (dt : ℚ) (dts : List ℚ) (hdt : 0 ≤ dt)
    (hnn : ∀ d ∈ dts, 0 ≤ d)
    (hrate : 0 ≤ spec.degradation_rate_per_sec_running)
    (hmin : spec.min_health ≤ s.health_score)
    (hpos : 0 < spec.min_health) :
    (Motor.runTicks spec s dts).health_score ≤ s.health_score
    ∧ 0 < (Motor.runTicks spec s dts).health_score
    ∧ (s.phase ≠ .Running →
        (Motor.tick spec s dt).health_score = s.health_score)
    ∧ (s.phase = .Running →
        (Motor.tick spec s dt).health_score
          = max spec.min_health
              (s.health_score
                - spec.degradation_rate_per_sec_running * dt)) := by
  have hseq := Motor.runTicks_health spec dts hnn hrate s hmin
  refine ⟨hseq.1, lt_of_lt_of_le hpos hseq.2, ?_, ?_⟩
  · intro hph
    cases h : s.phase <;> simp only [Motor.tick, h]
    · split <;> rfl
    · exact absurd h hph
  · intro hph
    simp [Motor.tick, hph]

/-- Witness for C3: a running motor with full health, ticked for 2 s and
then 3 s, keeps a positive, non-increased health score. -/
theorem c3_health_degradation_witness :
    (Motor.runTicks sampleMotorSpec
        { phase := .Running, current_amps := 2, health_score := 1,
          accumulated_runtime_sec := 0, elapsed_in_startup := 0 }
        [2, 3]).health_score ≤ 1 :=
  (c3_health_degradation sampleMotorSpec
      { phase := .Running, current_amps := 2, health_score := 1,
        accumulated_runtime_sec := 0, elapsed_in_startup := 0 }
      1 [2, 3] (by norm_num)
      (by intro d h; fin_cases h <;> norm_num)
      (by norm_num [sampleMotorSpec])
      (by norm_num [sampleMotorSpec])
      (by norm_num [sampleMotorSpec])).1

/-- Claim C1: when the carried object sits inside the HBW-side zone
(`|object_position - POS_HBW_INTERFACE| ≤ tolerance`), `start(Forward)`
is rejected with the `Congestion` error and returns the input state
untouched — in particular the drive motor is not activated, its phase
and current draw are exactly as before the call; symmetrically,
`start(Reverse)` is rejected while the VGR-side zone is triggered.  The
rejection is the first thing `start` does: the returned state is the
pre-call state, so no motor activation precedes it. -/
theorem c1_congestion_rejection (cfg : ConveyorConfig)
    (st : ConveyorState) (p : ℚ) (hobj : st.object_position = some p) :
    (|p - cfg.posHbwInterface| ≤ cfg.sensorTolerance →
        Conveyor.start cfg st .Forward
            = (st, some (.Congestion "HBW interface blocked"))
        ∧ ((Conveyor.start cfg st .Forward).1).motor = st.motor)
    ∧ (|p - cfg.posVgrInterface| ≤ cfg.sensorTolerance →
        Conveyor.start cfg st .Reverse
            = (st, some (.Congestion "VGR interface blocked"))
        ∧ ((Conveyor.start cfg st .Reverse).1).motor = st.motor) := by
  constructor
  · intro h
    have htrig : Conveyor.atHbwInterface cfg st = true := by
      simp [Conveyor.atHbwInterface, ZoneSensor.evaluateOpt, hobj,
        ZoneSensor.evaluate, Conveyor.hbwSensor, h]
    constructor
    · simp [Conveyor.start, htrig]
    · simp [Conveyor.start, htrig]
  · intro h
    have htrig : Conveyor.atVgrInterface cfg st = true := by
      simp [Conveyor.atVgrInterface, ZoneSensor.evaluateOpt, hobj,
        ZoneSensor.evaluate, Conveyor.vgrSensor, h]
    constructor
    · simp [Conveyor.start, htrig]
    · simp [Conveyor.start, htrig]

/-- Witness for C1: with the default geometry and an object resting
exactly at the HBW interface (400 mm), `start(Forward)` returns the
`Congestion` error and the untouched state. -/
theorem c1_congestion_rejection_witness :
    Conveyor.start stdConveyorConfig
        { Conveyor.init stdConveyorConfig with object_position := some 400 }
        .Forward
      = ({ Conveyor.init stdConveyorConfig with object_position := some 400 },
         some (.Congestion "HBW interface blocked")) :=
  ((c1_congestion_rejection stdConveyorConfig
      { Conveyor.init stdConveyorConfig with object_position := some 400 }
      400 rfl).1 (by norm_num [stdConveyorConfig])).1

/-- Claim C6: a `tick(dt)` performed while running with an object present
advances `object_position` by exactly `velocity * dt * sign(direction)`,
clamped to `[0, belt_length]`; and `tick` never changes whether an
object is present — position becomes `none` only through the explicit
`remove_object`, which clears it. -/
theorem c6_tick_transport (cfg : ConveyorConfig) (st : ConveyorState)
    (p dt : ℚ) (hrun : st.running = true)
    (hobj : st.object_position = some p) :
    (Conveyor.tick cfg st dt).object_position
      = some (min cfg.beltLength
          (max 0 (p + cfg.velocity * dt * st.direction.sign)))
    ∧ (∀ (st' : ConveyorState) (dt' : ℚ),
        ((Conveyor.tick cfg st' dt').object_position).isSome
          = (st'.object_position).isSome)
    ∧ (∀ st' : ConveyorState,
        (Conveyor.remove_object st').object_position = none) := by
  refine ⟨by simp [Conveyor.tick, hobj, hrun], ?_, ?_⟩
  · intro st' dt'
    cases h : st'.object_position with
    | none => simp [Conveyor.tick, h]
    | some q =>
        by_cases hr : st'.running = true <;> simp [Conveyor.tick, h, hr]
  · intro st'
    simp [Conveyor.remove_object]

/-- Witness for C6: an object at 350 mm on a running forward belt, after
a 0.1 s tick at 100 mm/s, sits at 360 mm. -/
theorem c6_tick_transport_witness :
    (Conveyor.tick stdConveyorConfig
        { Conveyor.init stdConveyorConfig with
            running := true, object_position := some 350 }
        (1/10)).object_position
      = some (min stdConveyorConfig.beltLength
          (max 0 (350 + stdConveyorConfig.velocity * (1/10)
            * Direction.sign .Forward))) :=
  (c6_tick_transport stdConveyorConfig
      { Conveyor.init stdConveyorConfig with
          running := true, object_position := some 350 }
      350 (1/10) rfl rfl).1

/-- Claim C8: `place_object(position)` on a conveyor that already holds
an object fails with the structured `AlreadyOccupied` error and leaves
the state (in particular `object_position`) unchanged; on an empty
conveyor it succeeds and sets `object_position = Some(position)`. -/
theorem c8_place_object (st : ConveyorState) (p q : ℚ) :
    (st.object_position = some q →
        Conveyor.place_object st p = (st, some .AlreadyOccupied))
    ∧ (st.object_position = none →
        Conveyor.place_object st p
          = ({ st with object_position := some p }, none)) := by
  constructor
  · intro h
    simp [Conveyor.place_object, h]
  · intro h
    simp [Conveyor.place_object, h]

/-- Witness for C8: placing at 105 mm on a conveyor already holding an
object at 0 mm is rejected with `AlreadyOccupied` and changes nothing. -/
theorem c8_place_object_witness :
    Conveyor.place_object
        { Conveyor.init stdConveyorConfig with object_position := some 0 }
        105
      = ({ Conveyor.init stdConveyorConfig with object_position := some 0 },
         some .AlreadyOccupied) :=
  (c8_place_object
      { Conveyor.init stdConveyorConfig with object_position := some 0 }
      105 0).1 rfl

/-- Counterexample to claim C7: the three slot tables do not all agree.
Slot `A1` maps to `(100, 100)` in `controller/main_controller.py` but the
simulation table asserted by `tests/test_factory_scenarios.py` expects
`(0, 200)`. -/
theorem c7_slot_tables_counterexample :
    slotLookup controllerSlotCoordinates "A1" = some (100, 100)
    ∧ slotLookup testExpectedSlotCoordinates "A1" = some (0, 200)
    ∧ slotLookup controllerSlotCoordinates "A1"
        ≠ slotLookup testExpectedSlotCoordinates "A1" := by
  refine ⟨rfl, rfl, ?_⟩
  decide

/-- Claim C7 (amended): the controller's `SLOT_COORDINATES` and the
database model's `SLOT_COORDINATES` are one identical mapping, but the
slot table the tests expect of the simulation differs from it (already
at slot `A1`). -/
theorem c7_slot_tables_amended :
    controllerSlotCoordinates = modelsSlotCoordinates
    ∧ (∀ slot : String,
        slotLookup controllerSlotCoordinates slot
          = slotLookup modelsSlotCoordinates slot)
    ∧ slotLookup controllerSlotCoordinates "A1"
        ≠ slotLookup testExpectedSlotCoordinates "A1" := by
  refine ⟨rfl, fun _ => rfl, ?_⟩
  decide

/-- Claim C9: `HighBayEdgeController.store_cookie` invoked before the
reference run has completed (`is_homed` false) is a silent no-op: the
whole state is returned unchanged — the storage grid keeps its contents,
no telemetry message is appended, and no error value exists (the
function has no error channel to produce one). -/
theorem c9_store_cookie_requires_homing (ct : CookieType)
    (st : HBWEdgeState) (h : st.is_homed = false) :
    HBWEdge.store_cookie ct st = st
    ∧ (HBWEdge.store_cookie ct st).grid = st.grid
    ∧ (HBWEdge.store_cookie ct st).telemetry = st.telemetry := by
  have hstore : HBWEdge.store_cookie ct st = st := by
    simp [HBWEdge.store_cookie, h]
  exact ⟨hstore, by rw [hstore], by rw [hstore]⟩

/-- Witness for C9: storing a cooked cookie into the initial, not yet
homed controller changes nothing. -/
theorem c9_store_cookie_requires_homing_witness :
    HBWEdge.store_cookie .Cooked HBWEdge.init = HBWEdge.init :=
  (c9_store_cookie_requires_homing .Cooked HBWEdge.init rfl).1

/-- Claim C10: while `status` is `MOVING`, every `_update_physics(dt)`
call increments `position.x` by exactly `1.0`, regardless of the `dt`
argument and of the stored target; the status switches to `IDLE` exactly
when the updated `position.x` exceeds `50`; and `position.y` and
`position.z` are never modified, whatever the status. -/
theorem c10_update_physics (s : MockHBWState) (dt dt' : ℚ)
    (t : Option MockPosition) (hs : s.status = .MOVING) :
    (MockHBW.update_physics s dt).position.x = s.position.x + 1
    ∧ ((MockHBW.update_physics s dt).status = .IDLE
        ↔ 50 < s.position.x + 1)
    ∧ MockHBW.update_physics s dt = MockHBW.update_physics s dt'
    ∧ (MockHBW.update_physics { s with target := t } dt).position.x
        = s.position.x + 1
    ∧ (∀ s' : MockHBWState,
        (MockHBW.update_physics s' dt).position.y = s'.position.y
        ∧ (MockHBW.update_physics s' dt).position.z = s'.position.z) := by
  refine ⟨?_, ?_, ?_, ?_, ?_⟩
  · simp [MockHBW.update_physics, hs]
  · by_cases h50 : (50:ℚ) < s.position.x + 1 <;>
      simp [MockHBW.update_physics, hs, h50]
  · rfl
  · simp [MockHBW.update_physics, hs]
  · intro s'
    by_cases h : s'.status = .MOVING <;>
      simp [MockHBW.update_physics, h]

/-- Witness for C10: a moving crane at x = 50 steps to x = 51 and (since
51 exceeds 50) becomes `IDLE`, for any tick size. -/
theorem c10_update_physics_witness :
    (MockHBW.update_physics
        { position := { x := 50, y := 2, z := 3 }, target := none,
          status := .MOVING, gripper_closed := false }
        (1/10)).status = .IDLE :=
  ((c10_update_physics
      { position := { x := 50, y := 2, z := 3 }, target := none,
        status := .MOVING, gripper_closed := false }
      (1/10) (1/10) none rfl).2.1).mpr (by norm_num)

end STF



